import Mathlib

/-!
Shallow embedding of `src/prompts/select.rs` from the `dialoguer` crate:
the single-choice select prompt.  Machine integers (`usize`, `u64`, `i64`)
are modelled as `Nat` and `Int` with explicit wrapping where the source
casts between them.  Terminal and theme calls are recorded as an explicit
trace of effects; the key-read loop consumes an explicit list of key
events.  The `Paging` collaborator lives in `src/paging.rs`, which is not
part of the provided sources, so it is modelled from the spec (see the
doc comments on the `Paging` definitions).
-/

/-- The sentinel `!0` (all bits set) used by the source for the unset
selection index, for a 64-bit `usize`. -/
def bang0 : Nat := 2 ^ 64 - 1

/-- Rust `sel as i64` for a 64-bit `usize` value: reinterpret the bits as
a signed two-complement integer. -/
def i64OfUsize (s : Nat) : Int :=
  if s < 2 ^ 63 then (s : Int) else (s : Int) - 2 ^ 64

/-- Wrapping of an integer into the `i64` range, as release-mode Rust
arithmetic does on overflow. -/
def i64Wrap (x : Int) : Int :=
  (x + 2 ^ 63) % 2 ^ 64 - 2 ^ 63

/-- Rust `x as usize` for an `i64` value `x`: reinterpret the bits as an
unsigned 64-bit integer. -/
def usizeOfI64 (x : Int) : Nat :=
  (x % 2 ^ 64).toNat

/-- The `ArrowDown`/`j` arm of the key match in `_interact_on`:
`if sel == !0 { sel = 0 } else { sel = (sel as u64 + 1).rem(len as u64) as usize }`.
Since `sel != !0`, the `u64` increment cannot wrap. -/
def downStep (n sel : Nat) : Nat :=
  if sel = bang0 then 0 else (sel + 1) % n

/-- The `ArrowUp`/`k` arm of the key match in `_interact_on`:
`if sel == !0 { sel = len - 1 } else { sel = ((sel as i64 - 1 + len as i64) % (len as i64)) as usize }`,
with release-mode wrapping at each `i64` operation and Rust truncated `%`
(`Int.tmod`). -/
def upStep (n sel : Nat) : Nat :=
  if sel = bang0 then n - 1
  else usizeOfI64 (Int.tmod (i64Wrap (i64Wrap (i64OfUsize sel - 1) + i64OfUsize n)) (i64OfUsize n))

/-- Iterated `downStep` starting from the unset sentinel: the index after
`k` consecutive Down presses when the interaction started unset. -/
def downIter (n : Nat) : Nat → Nat
  | 0 => bang0
  | k + 1 => downStep n (downIter n k)

/-- Rust `str::split` at a newline character, on the character list of a
string: yields the (possibly empty) segments between newlines, exactly as
`"a\nb".split('\n')` does. -/
def splitNl : List Char → List (List Char)
  | [] => [[]]
  | c :: cs =>
    if c = '\n' then [] :: splitNl cs
    else
      match splitNl cs with
      | [] => [[c]]
      | l :: ls => (c :: l) :: ls

/-- Rust `&str::len`: the UTF-8 byte length of a character list. -/
def byteLen (l : List Char) : Nat :=
  (l.map Char.utf8Size).sum

/-- Concatenation of a list of lists (the shape produced by `flat_map`). -/
def flattenL {α : Type} : List (List α) → List α
  | [] => []
  | l :: ls => l ++ flattenL ls

/-- The `size_vec` computed by `_interact_on` before the loop: for every
line of every item (items flat-mapped through `split('\n')`), the byte
length (`&str::len`) of that line. -/
def sizeVec (items : List String) : List Nat :=
  (flattenL (items.map (fun i => splitNl i.data))).map byteLen

/-- The key events the loop distinguishes (from `console::Key`). -/
inductive Key : Type
  | arrowDown
  | arrowUp
  | arrowLeft
  | arrowRight
  | escape
  | enter
  | char (c : Char)
  | other
deriving DecidableEq

/-- Terminal and theme-renderer calls performed by `_interact_on`,
recorded as a trace. -/
inductive Effect : Type
  | hideCursor
  | showCursor
  | flush
  | clearLastLines (n : Nat)
  | renderPrompt (s : String)
  | renderPromptPaged (s : String) (page : Nat) (pages : Nat)
  | renderItem (s : String) (highlighted : Bool)
  | renderClear
  | renderSelection (prompt : String) (item : String)
  | clearPreservePrompt (sizes : List Nat)
deriving DecidableEq

/-- The configuration of the `Select` builder: default index (`!0` means
unset), item list, optional prompt, clear-on-exit flag. -/
structure Select : Type where
  default : Nat
  items : List String
  prompt : Option String
  clear : Bool
deriving DecidableEq

/-- Modelled from the spec: the Pager state from `src/paging.rs`, which
is not among the provided sources.  It holds the page capacity (items per
page, derived from terminal geometry, held fixed here: no resize), the
item count and the current 0-based page. -/
structure Paging : Type where
  capacity : Nat
  itemCount : Nat
  currentPage : Nat
deriving DecidableEq

/-- Modelled from the spec: total page count is the ceiling of
itemCount / capacity. -/
def Paging.pages (p : Paging) : Nat :=
  (p.itemCount + p.capacity - 1) / p.capacity

/-- Modelled from the spec: paging is active precisely when there is more
than one page. -/
def Paging.enabled (p : Paging) : Bool :=
  decide (1 < p.pages)

/-- Modelled from the spec: `Paging::new` from the terminal geometry and
the item list; the interaction starts on page 0. -/
def Paging.new (capacity itemCount : Nat) : Paging :=
  ⟨capacity, itemCount, 0⟩

/-- Modelled from the spec: `update` recomputes the current page so that
the highlighted index is visible; an unset index picks the page holding
list-index 0. -/
def Paging.update (p : Paging) (sel : Nat) : Paging :=
  ⟨p.capacity, p.itemCount, if sel = bang0 then 0 else sel / p.capacity⟩

/-- Modelled from the spec: `next_page` advances the current page with
wrap-around over the page count and returns the list-index of the first
item of the resulting page. -/
def Paging.nextPage (p : Paging) : Paging × Nat :=
  ((⟨p.capacity, p.itemCount, (p.currentPage + 1) % p.pages⟩ : Paging),
    ((p.currentPage + 1) % p.pages) * p.capacity)

/-- Modelled from the spec: `previous_page` retreats the current page
with wrap-around over the page count and returns the list-index of the
first item of the resulting page. -/
def Paging.previousPage (p : Paging) : Paging × Nat :=
  ((⟨p.capacity, p.itemCount, (p.currentPage + p.pages - 1) % p.pages⟩ : Paging),
    ((p.currentPage + p.pages - 1) % p.pages) * p.capacity)

/-- Modelled from the spec: `render_page_items` visits, in list order,
the (list-index, item) pairs of the items on the current page. -/
def Paging.pageItems (p : Paging) (items : List String) : List (Nat × String) :=
  ((List.range p.capacity).map (fun j => p.currentPage * p.capacity + j)).filterMap
    (fun idx => (items.get? idx).map (fun it => (idx, it)))

/-- Result of handling one key event in the loop body: continue with a
new index and pager, or return from `_interact_on`, or hit the panic of
the out-of-bounds indexing `self.items[sel]`. -/
inductive StepResult : Type
  | cont (sel : Nat) (pg : Paging) (effs : List Effect)
  | done (res : Option Nat) (effs : List Effect)
  | panicked (effs : List Effect)
deriving DecidableEq

/-- The key match of `_interact_on`, arm by arm.  `aq` is the
`allow_quit` parameter. -/
def matchKey (s : Select) (aq : Bool) (pg : Paging) (sel : Nat) : Key → StepResult
  | Key.arrowDown => StepResult.cont (downStep s.items.length sel) pg []
  | Key.arrowUp => StepResult.cont (upStep s.items.length sel) pg []
  | Key.arrowLeft =>
    if pg.enabled then StepResult.cont pg.previousPage.2 pg.previousPage.1 []
    else StepResult.cont sel pg []
  | Key.arrowRight =>
    if pg.enabled then StepResult.cont pg.nextPage.2 pg.nextPage.1 []
    else StepResult.cont sel pg []
  | Key.escape =>
    if aq then
      StepResult.done none
        (if s.clear then
          [Effect.clearLastLines s.items.length, Effect.showCursor, Effect.flush]
        else [])
    else StepResult.cont sel pg []
  | Key.enter =>
    if sel = bang0 then StepResult.cont sel pg []
    else
      match s.prompt with
      | some p =>
        if h : sel < s.items.length then
          StepResult.done (some sel)
            ((if s.clear then [Effect.renderClear] else []) ++
              [Effect.renderSelection p (s.items.get ⟨sel, h⟩), Effect.showCursor, Effect.flush])
        else StepResult.panicked (if s.clear then [Effect.renderClear] else [])
      | none =>
        StepResult.done (some sel)
          ((if s.clear then [Effect.renderClear] else []) ++ [Effect.showCursor, Effect.flush])
  | Key.char c =>
    if c = 'j' then StepResult.cont (downStep s.items.length sel) pg []
    else if c = 'k' then StepResult.cont (upStep s.items.length sel) pg []
    else if c = 'h' then
      (if pg.enabled then StepResult.cont pg.previousPage.2 pg.previousPage.1 []
        else StepResult.cont sel pg [])
    else if c = 'l' then
      (if pg.enabled then StepResult.cont pg.nextPage.2 pg.nextPage.1 []
        else StepResult.cont sel pg [])
    else if c = 'q' then
      (if aq then
        StepResult.done none
          (if s.clear then
            [Effect.clearLastLines s.items.length, Effect.showCursor, Effect.flush]
          else [])
      else StepResult.cont sel pg [])
    else if c = ' ' then
      (if sel = bang0 then StepResult.cont sel pg []
      else
        match s.prompt with
        | some p =>
          if h : sel < s.items.length then
            StepResult.done (some sel)
              ((if s.clear then [Effect.renderClear] else []) ++
                [Effect.renderSelection p (s.items.get ⟨sel, h⟩), Effect.showCursor, Effect.flush])
          else StepResult.panicked (if s.clear then [Effect.renderClear] else [])
        | none =>
          StepResult.done (some sel)
            ((if s.clear then [Effect.renderClear] else []) ++ [Effect.showCursor, Effect.flush]))
    else StepResult.cont sel pg []
  | Key.other => StepResult.cont sel pg []

/-- The rendering effects of one loop iteration before the key read: the
paged clear and paged prompt when paging is enabled, then one
`render_item` per visible item, highlighted iff its list-index equals the
current selection. -/
def iterRenderEffects (s : Select) (pg : Paging) (sel : Nat) : List Effect :=
  (if pg.enabled then
    [Effect.clearLastLines pg.capacity] ++
      (match s.prompt with
      | some p => [Effect.renderPromptPaged p (pg.currentPage + 1) pg.pages]
      | none => [])
  else []) ++
    (pg.pageItems s.items).map (fun pr => Effect.renderItem pr.2 (sel == pr.1))

/-- How a run of `_interact_on` ends in the embedding: the configuration
error for an empty item list, a returned `Ok` value, the indexing panic,
or exhaustion of the supplied key events (the real loop would block on
the next `read_key`). -/
inductive RunResult : Type
  | configError
  | finished (res : Option Nat)
  | panicked
  | exhausted (sel : Nat) (page : Nat)
deriving DecidableEq

/-- A run: the trace of terminal and renderer effects, and how it ended. -/
structure Run : Type where
  effects : List Effect
  result : RunResult
deriving DecidableEq

/-- The loop of `_interact_on`, consuming one key event per iteration.
Each iteration updates the pager for the current selection, renders,
reads a key, applies the key match, and on a continuing key clears the
rendered region via `clear_preserve_prompt(&size_vec)` before looping. -/
def interactLoop (s : Select) (aq : Bool) (pg : Paging) (sel : Nat) : List Key → Run
  | [] =>
    ⟨iterRenderEffects s (pg.update sel) sel,
      RunResult.exhausted sel (pg.update sel).currentPage⟩
  | k :: rest =>
    match matchKey s aq (pg.update sel) sel k with
    | StepResult.done res effs =>
      ⟨iterRenderEffects s (pg.update sel) sel ++ effs, RunResult.finished res⟩
    | StepResult.panicked effs =>
      ⟨iterRenderEffects s (pg.update sel) sel ++ effs, RunResult.panicked⟩
    | StepResult.cont sel2 pg2 effs =>
      ⟨iterRenderEffects s (pg.update sel) sel ++ effs ++
          [Effect.clearPreservePrompt (sizeVec s.items)] ++
          (interactLoop s aq pg2 sel2 rest).effects,
        (interactLoop s aq pg2 sel2 rest).result⟩

/-- `_interact_on`: build the pager, fail on an empty item list before
any terminal effect, render the prompt if configured, hide the cursor,
and run the loop starting from the configured default index. -/
def interactOnPriv (s : Select) (cap : Nat) (aq : Bool) (keys : List Key) : Run :=
  if s.items.isEmpty then ⟨[], RunResult.configError⟩
  else
    let r := interactLoop s aq (Paging.new cap s.items.length) s.default keys
    ⟨(match s.prompt with
      | some p => [Effect.renderPrompt p]
      | none => []) ++ [Effect.hideCursor] ++ r.effects,
      r.result⟩

/-- Outcome of the forcing entry point `interact_on` as seen by the
caller. -/
inductive ForcedResult : Type
  | ok (i : Nat)
  | quitNotAllowed
  | configError
  | panicked
  | exhausted
deriving DecidableEq

/-- `interact_on`: runs `_interact_on` with `allow_quit = false` and maps
a `None` result to the `Quit not allowed in this case` error via
`ok_or_else`. -/
def interactOnForced (s : Select) (cap : Nat) (keys : List Key) : ForcedResult :=
  match (interactOnPriv s cap false keys).result with
  | RunResult.finished (some i) => ForcedResult.ok i
  | RunResult.finished none => ForcedResult.quitNotAllowed
  | RunResult.configError => ForcedResult.configError
  | RunResult.panicked => ForcedResult.panicked
  | RunResult.exhausted _ _ => ForcedResult.exhausted

/-- `interact_on_opt`: runs `_interact_on` with `allow_quit = true`. -/
def interactOnOpt (s : Select) (cap : Nat) (keys : List Key) : Run :=
  interactOnPriv s cap true keys

/-! ## Helper lemmas -/

lemma i64OfUsize_small (s : Nat) (h : s < 2 ^ 63) : i64OfUsize s = (s : Int) := by
  unfold i64OfUsize
  rw [if_pos h]

lemma i64Wrap_id (x : Int) (hl : -(2 ^ 63) ≤ x) (hu : x < 2 ^ 63) : i64Wrap x = x := by
  unfold i64Wrap
  omega

lemma tmod_natCast (a b : Nat) : Int.tmod (a : Int) (b : Int) = ((a % b : Nat) : Int) := rfl

lemma usizeOfI64_natCast (m : Nat) (h : m < 2 ^ 64) : usizeOfI64 (m : Int) = m := by
  unfold usizeOfI64
  omega

lemma upStep_eq (n sel : Nat) (h1 : 0 < n) (h : sel + n < 2 ^ 63) :
    upStep n sel = (sel + (n - 1)) % n := by
  have hs : sel ≠ bang0 := by unfold bang0; omega
  have hsel : i64OfUsize sel = (sel : Int) := i64OfUsize_small sel (by omega)
  have hn : i64OfUsize n = (n : Int) := i64OfUsize_small n (by omega)
  have hw1 : i64Wrap ((sel : Int) - 1) = (sel : Int) - 1 := i64Wrap_id _ (by omega) (by omega)
  have hw2 : i64Wrap ((sel : Int) - 1 + (n : Int)) = (sel : Int) - 1 + (n : Int) :=
    i64Wrap_id _ (by omega) (by omega)
  have hcast : (sel : Int) - 1 + (n : Int) = ((sel + (n - 1) : Nat) : Int) := by omega
  unfold upStep
  rw [if_neg hs, hsel, hn, hw1, hw2, hcast, tmod_natCast]
  exact usizeOfI64_natCast _ (lt_trans (Nat.mod_lt _ h1) (by omega))

lemma downIter_eq (n : Nat) (h1 : 0 < n) (h2 : n < 2 ^ 62) :
    ∀ k, 1 ≤ k → downIter n k = (k - 1) % n := by
  intro k
  induction k with
  | zero => intro hk; omega
  | succ k ih =>
    intro _
    cases Nat.eq_zero_or_pos k with
    | inl h0 =>
      subst h0
      simp [downIter, downStep]
    | inr hpos =>
      have hik := ih hpos
      have hlt : (k - 1) % n < n := Nat.mod_lt _ h1
      have hne : (k - 1) % n ≠ bang0 := by unfold bang0; omega
      show downStep n (downIter n k) = (k + 1 - 1) % n
      rw [hik]
      unfold downStep
      rw [if_neg hne, Nat.mod_add_mod]
      congr 1
      omega

lemma Paging.update_update (p : Paging) (a b : Nat) :
    (p.update a).update b = p.update b := rfl

lemma interactLoop_congr (s : Select) (aq : Bool) (sel : Nat) (keys : List Key)
    (p1 p2 : Paging) (h : p1.update sel = p2.update sel) :
    interactLoop s aq p1 sel keys = interactLoop s aq p2 sel keys := by
  cases keys <;> simp only [interactLoop, h]

lemma flattenL_length {α : Type} (ls : List (List α)) :
    (flattenL ls).length = (ls.map List.length).sum := by
  induction ls with
  | nil => rfl
  | cons l ls ih => simp [flattenL, ih]

lemma sizeVec_length (items : List String) :
    (sizeVec items).length = (items.map (fun i => (splitNl i.data).length)).sum := by
  unfold sizeVec
  rw [List.length_map, flattenL_length, List.map_map]
  rfl

/-! ## Claim theorems -/

/-- C2: for a non-empty item list of length `n`, Down with the index
unset sets it to 0, otherwise to `(index + 1) mod n`; Up with the index
unset sets it to `n - 1`, otherwise to `(index - 1 + n) mod n`; Up from 0
yields `n - 1`, Down from `n - 1` yields 0, and `k` consecutive Down
presses starting unset leave the index at `(k - 1) mod n`. -/
theorem claim_C2_up_down (n sel k : Nat) (h1 : 0 < n) (h2 : n < 2 ^ 62) :
    downStep n bang0 = 0
    ∧ (sel < n → downStep n sel = (sel + 1) % n)
    ∧ upStep n bang0 = n - 1
    ∧ (sel < n → upStep n sel = (sel + (n - 1)) % n)
    ∧ upStep n 0 = n - 1
    ∧ downStep n (n - 1) = 0
    ∧ (1 ≤ k → downIter n k = (k - 1) % n) := by
  refine ⟨by simp [downStep], ?_, by simp [upStep], ?_, ?_, ?_, downIter_eq n h1 h2 k⟩
  · intro h
    unfold downStep
    rw [if_neg (by unfold bang0; omega)]
  · intro h
    exact upStep_eq n sel h1 (by omega)
  · rw [upStep_eq n 0 h1 (by omega), Nat.zero_add, Nat.mod_eq_of_lt (by omega)]
  · unfold downStep
    rw [if_neg (by unfold bang0; omega), Nat.sub_add_cancel h1, Nat.mod_self]

/-- Witness for C2 at `n = 4`, `sel = 2`, `k = 5`. -/
theorem claim_C2_up_down_witness :
    (0 < 4 ∧ 4 < 2 ^ 62)
    ∧ upStep 4 0 = 4 - 1
    ∧ downIter 4 5 = (5 - 1) % 4 :=
  ⟨⟨by decide, by decide⟩,
    (claim_C2_up_down 4 2 5 (by decide) (by decide)).2.2.2.2.1,
    (claim_C2_up_down 4 2 5 (by decide) (by decide)).2.2.2.2.2.2 (by decide)⟩

/-- C10 counterexample: pressing Up with the highlighted index holding
the out-of-range value `2 ^ 63 + 1` over a 3-item list yields
`2 ^ 64 - 2`, which is not in `[0, 3)`: the signed cast in the Up arm
goes negative and the truncated remainder stays negative. -/
theorem claim_C10_counterexample :
    upStep 3 (2 ^ 63 + 1) = 2 ^ 64 - 2 ∧ ¬ upStep 3 (2 ^ 63 + 1) < 3 := by
  constructor <;> decide

/-- C10 amended: Down always lands in `[0, n)` and never on the unset
sentinel, whatever the prior index was; Up lands in `[0, n)` and never on
the sentinel when the prior index is the sentinel or small enough that
the `as i64` cast stays nonnegative (`sel + n < 2 ^ 63`, which covers
every in-range index); Up from a set out-of-range index at or above
`2 ^ 63` can land out of range. -/
theorem claim_C10_movement_range (n sel : Nat) (h1 : 0 < n) (h2 : n < 2 ^ 64) :
    (downStep n sel < n ∧ downStep n sel ≠ bang0)
    ∧ upStep n bang0 = n - 1
    ∧ (sel + n < 2 ^ 63 → upStep n sel < n ∧ upStep n sel ≠ bang0) := by
  refine ⟨?_, by simp [upStep], ?_⟩
  · unfold downStep
    by_cases h : sel = bang0
    · rw [if_pos h]
      exact ⟨h1, by unfold bang0; omega⟩
    · rw [if_neg h]
      have := Nat.mod_lt (sel + 1) h1
      exact ⟨this, by unfold bang0; omega⟩
  · intro h
    rw [upStep_eq n sel h1 h]
    have := Nat.mod_lt (sel + (n - 1)) h1
    exact ⟨this, by unfold bang0; omega⟩

/-- Witness for C10 amended at `n = 3`, `sel = 1`. -/
theorem claim_C10_movement_range_witness :
    (0 < 3 ∧ 3 < 2 ^ 64 ∧ 1 + 3 < 2 ^ 63)
    ∧ downStep 3 1 < 3
    ∧ upStep 3 1 < 3 :=
  ⟨⟨by decide, by decide, by decide⟩,
    (claim_C10_movement_range 3 1 (by decide) (by decide)).1.1,
    ((claim_C10_movement_range 3 1 (by decide) (by decide)).2.2 (by decide)).1⟩

/-- C1 (code bug evaluation): cancelling with Escape when cancellation is
allowed but clear-on-exit is disabled terminates with the Cancelled
result while never calling `show_cursor`, because the `show_cursor` call
of the quit arm sits inside the `if self.clear` block; the hide-cursor
call did run, so the cursor is left hidden on this terminating path. -/
theorem claim_C1_cancel_without_clear_skips_show_cursor :
    (interactOnPriv ⟨0, ["a"], none, false⟩ 10 true [Key.escape]).result
      = RunResult.finished none
    ∧ Effect.hideCursor ∈ (interactOnPriv ⟨0, ["a"], none, false⟩ 10 true [Key.escape]).effects
    ∧ Effect.showCursor ∉ (interactOnPriv ⟨0, ["a"], none, false⟩ 10 true [Key.escape]).effects
    ∧ Effect.showCursor ∈ (interactOnPriv ⟨0, ["a"], none, true⟩ 10 true [Key.escape]).effects
    ∧ Effect.showCursor ∈ (interactOnPriv ⟨0, ["a"], none, false⟩ 10 true [Key.enter]).effects := by
  refine ⟨by decide, by decide, by decide, by decide, by decide⟩

/-- C4 counterexample: for the single item `"ab\ncde"` (one item, two
embedded lines), the vector handed to `clear_preserve_prompt` between
iterations is `[2, 3]` — the byte lengths of the two flattened lines —
and not the per-item line-count vector `[2]`. -/
theorem claim_C4_counterexample :
    Effect.clearPreservePrompt [2, 3]
      ∈ (interactOnPriv ⟨0, ["ab\ncde"], none, true⟩ 10 false [Key.other]).effects
    ∧ sizeVec ["ab\ncde"] = [2, 3]
    ∧ sizeVec ["ab\ncde"] ≠ ["ab\ncde"].map (fun i => (splitNl i.data).length) := by
  refine ⟨by decide, by decide, by decide⟩

/-- C4 amended: the vector passed to the region-erasing step
(`clear_preserve_prompt`) is `size_vec`, which has one entry per embedded
line of the flattened item list — so its length is the sum of the per-item
line counts — but each entry is that line's byte length, not a per-item
line count. -/
theorem claim_C4_size_vec (items : List String) (s : Select) (cap : Nat) (aq : Bool)
    (hne : s.items ≠ []) :
    (sizeVec items).length = (items.map (fun i => (splitNl i.data).length)).sum
    ∧ Effect.clearPreservePrompt (sizeVec s.items)
        ∈ (interactOnPriv s cap aq [Key.other]).effects := by
  have hb : s.items.isEmpty = false := by
    cases h : s.items with
    | nil => exact absurd h hne
    | cons a as => rfl
  refine ⟨sizeVec_length items, ?_⟩
  cases hp : s.prompt <;>
    simp [interactOnPriv, hb, interactLoop, matchKey, hp, List.mem_append]

/-- Witness for C4 amended with items `["x", "ab\ncde"]`. -/
theorem claim_C4_size_vec_witness :
    ((["x", "ab\ncde"] : List String) ≠ [])
    ∧ (sizeVec ["x", "ab\ncde"]).length
        = ((["x", "ab\ncde"] : List String).map (fun i => (splitNl i.data).length)).sum
    ∧ Effect.clearPreservePrompt (sizeVec ["x", "ab\ncde"])
        ∈ (interactOnPriv ⟨0, ["x", "ab\ncde"], none, true⟩ 7 true [Key.other]).effects :=
  ⟨by decide,
    (claim_C4_size_vec ["x", "ab\ncde"] ⟨0, ["x", "ab\ncde"], none, true⟩ 7 true (by decide)).1,
    (claim_C4_size_vec ["x", "ab\ncde"] ⟨0, ["x", "ab\ncde"], none, true⟩ 7 true (by decide)).2⟩

/-- C6: with an empty item list, `_interact_on` fails with the
configuration error immediately, with an empty effect trace: no cursor
hide, no rendering and no clearing has happened. -/
theorem claim_C6_empty_items (s : Select) (cap : Nat) (aq : Bool) (keys : List Key)
    (h : s.items = []) :
    interactOnPriv s cap aq keys = ⟨[], RunResult.configError⟩ := by
  unfold interactOnPriv
  rw [if_pos (by simp [h])]

/-- Witness for C6 on a concrete empty-item configuration. -/
theorem claim_C6_empty_items_witness :
    (Select.items ⟨3, [], some "pick", true⟩ = [])
    ∧ interactOnPriv ⟨3, [], some "pick", true⟩ 5 true [Key.enter, Key.escape]
        = ⟨[], RunResult.configError⟩ :=
  ⟨rfl, claim_C6_empty_items ⟨3, [], some "pick", true⟩ 5 true [Key.enter, Key.escape] rfl⟩

/-- C9: the configured default index is never validated against the item
count: with a non-empty list of length `n` and a default `d` with
`n ≤ d` and `d` distinct from the unset sentinel, pressing Enter as the
first key returns `Selected(d)` with `d` out of range when no prompt is
configured, and runs into the out-of-bounds indexing `self.items[sel]`
(a panic) when a prompt is configured. -/
theorem claim_C9_default_not_validated (items : List String) (d cap : Nat) (clear aq : Bool)
    (p : String) (h0 : items ≠ []) (h1 : items.length ≤ d) (h2 : d ≠ bang0) :
    (interactOnPriv ⟨d, items, none, clear⟩ cap aq [Key.enter]).result
      = RunResult.finished (some d)
    ∧ (interactOnPriv ⟨d, items, some p, clear⟩ cap aq [Key.enter]).result
      = RunResult.panicked := by
  have hb : items.isEmpty = false := by
    cases h : items with
    | nil => exact absurd h h0
    | cons a as => rfl
  constructor <;>
    simp [interactOnPriv, hb, interactLoop, matchKey, h2, Nat.not_lt.mpr h1]

/-- Witness for C9 with one item and default 5. -/
theorem claim_C9_default_not_validated_witness :
    ((["a"] : List String) ≠ [] ∧ (["a"] : List String).length ≤ 5 ∧ 5 ≠ bang0)
    ∧ (interactOnPriv ⟨5, ["a"], none, true⟩ 9 false [Key.enter]).result
        = RunResult.finished (some 5)
    ∧ (interactOnPriv ⟨5, ["a"], some "pick", true⟩ 9 false [Key.enter]).result
        = RunResult.panicked :=
  ⟨⟨by decide, by decide, by decide⟩,
    (claim_C9_default_not_validated ["a"] 5 9 true false "pick" (by decide) (by decide)
      (by decide)).1,
    (claim_C9_default_not_validated ["a"] 5 9 true false "pick" (by decide) (by decide)
      (by decide)).2⟩

/-- C3: pressing Enter or Space with the highlighted index unset is a
no-op — the loop continues and produces the same result as without that
key; with a set in-range index the loop terminates with
`Selected(index)`, and when a prompt is configured the confirmation
render receives exactly `items[index]`. -/
theorem claim_C3_confirm_keys (s : Select) (aq : Bool) (pg : Paging) (sel : Nat)
    (keys : List Key) (hne : s.items ≠ []) :
    ((interactLoop s aq pg bang0 (Key.enter :: keys)).result
        = (interactLoop s aq pg bang0 keys).result
      ∧ (interactLoop s aq pg bang0 (Key.char ' ' :: keys)).result
        = (interactLoop s aq pg bang0 keys).result)
    ∧ ∀ h : sel < s.items.length, sel ≠ bang0 →
        ((interactLoop s aq pg sel [Key.enter]).result = RunResult.finished (some sel)
        ∧ (interactLoop s aq pg sel [Key.char ' ']).result = RunResult.finished (some sel)
        ∧ ∀ p, s.prompt = some p →
            Effect.renderSelection p (s.items.get ⟨sel, h⟩)
              ∈ (interactLoop s aq pg sel [Key.enter]).effects) := by
  have hcongr := interactLoop_congr s aq bang0 keys (pg.update bang0) pg
    (Paging.update_update pg bang0 bang0)
  constructor
  · constructor <;> simp [interactLoop, matchKey, hcongr]
  · intro h hsel
    refine ⟨?_, ?_, ?_⟩
    · cases hp : s.prompt <;> simp [interactLoop, matchKey, hsel, hp, h]
    · cases hp : s.prompt <;> simp [interactLoop, matchKey, hsel, hp, h]
    · intro p hp
      cases hc : s.clear <;>
        simp [interactLoop, matchKey, hsel, hp, h, hc, List.mem_append]

/-- Witness for C3 on a two-item list with index 1 set. -/
theorem claim_C3_confirm_keys_witness :
    ((["a", "b"] : List String) ≠ []
      ∧ 1 < (["a", "b"] : List String).length ∧ 1 ≠ bang0)
    ∧ (interactLoop ⟨0, ["a", "b"], none, true⟩ false (Paging.new 10 2) 1 [Key.enter]).result
        = RunResult.finished (some 1) :=
  ⟨⟨by decide, by decide, by decide⟩,
    ((claim_C3_confirm_keys ⟨0, ["a", "b"], none, true⟩ false (Paging.new 10 2) 1 []
        (by decide)).2 (by decide) (by decide)).1⟩

/-- C5: the optional entry point (`interact_on_opt`, which runs the loop
with `allow_quit = true`) returns `Some(index)` on a selection and `None`
when the user cancels with Escape or `q`; the forcing entry point
(`interact_on`, which runs the loop with `allow_quit = false` and turns a
`None` outcome into the `Quit not allowed in this case` error) returns
the selected index on a selection. -/
theorem claim_C5_entry_points (s : Select) (cap : Nat) (keys : List Key)
    (h0 : s.items ≠ []) (h1 : s.default < s.items.length) (h2 : s.default ≠ bang0) :
    interactOnForced s cap (Key.enter :: keys) = ForcedResult.ok s.default
    ∧ (interactOnOpt s cap (Key.enter :: keys)).result = RunResult.finished (some s.default)
    ∧ (interactOnOpt s cap (Key.escape :: keys)).result = RunResult.finished none
    ∧ (interactOnOpt s cap (Key.char 'q' :: keys)).result = RunResult.finished none := by
  have hb : s.items.isEmpty = false := by
    cases h : s.items with
    | nil => exact absurd h h0
    | cons a as => rfl
  refine ⟨?_, ?_, ?_, ?_⟩ <;>
    cases hp : s.prompt <;>
      simp [interactOnForced, interactOnOpt, interactOnPriv, hb, interactLoop, matchKey,
        h2, h1, hp]

/-- Witness for C5 with two items and default 1. -/
theorem claim_C5_entry_points_witness :
    ((["x", "y"] : List String) ≠ []
      ∧ 1 < (["x", "y"] : List String).length ∧ 1 ≠ bang0)
    ∧ interactOnForced ⟨1, ["x", "y"], none, true⟩ 8 [Key.enter] = ForcedResult.ok 1
    ∧ (interactOnOpt ⟨1, ["x", "y"], none, true⟩ 8 [Key.escape]).result
        = RunResult.finished none :=
  ⟨⟨by decide, by decide, by decide⟩,
    (claim_C5_entry_points ⟨1, ["x", "y"], none, true⟩ 8 [] (by decide) (by decide)
      (by decide)).1,
    (claim_C5_entry_points ⟨1, ["x", "y"], none, true⟩ 8 [] (by decide) (by decide)
      (by decide)).2.2.1⟩

/-- C7: with cancellation not allowed, Escape and `q` leave the
highlighted index and pager unchanged and the loop continues with the
same result as without the key, producing no error; with cancellation
allowed they terminate the loop with the Cancelled (`None`) outcome. -/
theorem claim_C7_cancel (s : Select) (pg : Paging) (sel : Nat) (keys : List Key)
    (hne : s.items ≠ []) :
    (matchKey s false pg sel Key.escape = StepResult.cont sel pg []
      ∧ matchKey s false pg sel (Key.char 'q') = StepResult.cont sel pg [])
    ∧ ((interactLoop s false pg sel (Key.escape :: keys)).result
        = (interactLoop s false pg sel keys).result
      ∧ (interactLoop s false pg sel (Key.char 'q' :: keys)).result
        = (interactLoop s false pg sel keys).result)
    ∧ ((interactLoop s true pg sel [Key.escape]).result = RunResult.finished none
      ∧ (interactLoop s true pg sel [Key.char 'q']).result = RunResult.finished none) := by
  have hcongr := interactLoop_congr s false sel keys (pg.update sel) pg
    (Paging.update_update pg sel sel)
  refine ⟨⟨?_, ?_⟩, ⟨?_, ?_⟩, ⟨?_, ?_⟩⟩ <;>
    simp [interactLoop, matchKey, hcongr]

/-- Witness for C7 on a one-item list. -/
theorem claim_C7_cancel_witness :
    ((["a"] : List String) ≠ [])
    ∧ matchKey ⟨0, ["a"], none, true⟩ false (Paging.new 4 1) 0 Key.escape
        = StepResult.cont 0 (Paging.new 4 1) []
    ∧ (interactLoop ⟨0, ["a"], none, true⟩ true (Paging.new 4 1) 0 [Key.escape]).result
        = RunResult.finished none :=
  ⟨by decide,
    (claim_C7_cancel ⟨0, ["a"], none, true⟩ (Paging.new 4 1) 0 [] (by decide)).1.1,
    (claim_C7_cancel ⟨0, ["a"], none, true⟩ (Paging.new 4 1) 0 [] (by decide)).2.2.1⟩

/-- C8: Left/`h` and Right/`l` are no-ops on the highlighted index when
paging is inactive; when paging is active they move to the previous/next
page with wrap-around over the page count and set the highlighted index
to the list-index of that page's first item. -/
theorem claim_C8_page_keys (s : Select) (aq : Bool) (pg : Paging) (sel : Nat) :
    (matchKey s aq pg sel (Key.char 'h') = matchKey s aq pg sel Key.arrowLeft
      ∧ matchKey s aq pg sel (Key.char 'l') = matchKey s aq pg sel Key.arrowRight)
    ∧ (pg.enabled = false →
        matchKey s aq pg sel Key.arrowLeft = StepResult.cont sel pg []
        ∧ matchKey s aq pg sel Key.arrowRight = StepResult.cont sel pg [])
    ∧ (pg.enabled = true →
        matchKey s aq pg sel Key.arrowLeft
          = StepResult.cont (((pg.currentPage + pg.pages - 1) % pg.pages) * pg.capacity)
              ⟨pg.capacity, pg.itemCount, (pg.currentPage + pg.pages - 1) % pg.pages⟩ []
        ∧ matchKey s aq pg sel Key.arrowRight
          = StepResult.cont (((pg.currentPage + 1) % pg.pages) * pg.capacity)
              ⟨pg.capacity, pg.itemCount, (pg.currentPage + 1) % pg.pages⟩ []
        ∧ (pg.currentPage = 0 →
            (pg.currentPage + pg.pages - 1) % pg.pages = pg.pages - 1)
        ∧ (pg.currentPage = pg.pages - 1 → (pg.currentPage + 1) % pg.pages = 0)) := by
  refine ⟨⟨by simp [matchKey], by simp [matchKey]⟩, ?_, ?_⟩
  · intro h
    exact ⟨by simp [matchKey, h], by simp [matchKey, h]⟩
  · intro h
    have hp : 1 < pg.pages := by
      have := h
      unfold Paging.enabled at this
      exact of_decide_eq_true this
    refine ⟨by simp [matchKey, h, Paging.previousPage],
      by simp [matchKey, h, Paging.nextPage], ?_, ?_⟩
    · intro hc
      rw [hc, Nat.zero_add, Nat.mod_eq_of_lt (by omega)]
    · intro hc
      rw [hc, Nat.sub_add_cancel (by omega), Nat.mod_self]

/-- Witness for C8 on a 10-item pager with capacity 4 (3 pages), showing
the wrap-around from page 0 to the last page and the first-item index. -/
theorem claim_C8_page_keys_witness :
    (Paging.enabled ⟨4, 10, 0⟩ = true)
    ∧ matchKey ⟨0, ["a"], none, true⟩ false ⟨4, 10, 0⟩ 0 Key.arrowLeft
        = StepResult.cont 8 ⟨4, 10, 2⟩ []
    ∧ matchKey ⟨0, ["a"], none, true⟩ false ⟨4, 10, 0⟩ 0 Key.arrowRight
        = StepResult.cont 4 ⟨4, 10, 1⟩ [] :=
  ⟨by decide,
    ((claim_C8_page_keys ⟨0, ["a"], none, true⟩ false ⟨4, 10, 0⟩ 0).2.2 (by decide)).1,
    ((claim_C8_page_keys ⟨0, ["a"], none, true⟩ false ⟨4, 10, 0⟩ 0).2.2 (by decide)).2.1⟩
